import Mathlib

/-!
Verification development for the Aerofly FS4 to SayIntentionsAI bridge
(`python/udp_to_websocket.py`).

The bridge receives UDP telemetry lines from the simulator, parses position
(`XGPSAerofly`) and attitude (`XATTAerofly`) lines, merges them with a radio
state controlled from a web interface, streams position text to the connected
web client and writes a SimAPI JSON file for SayIntentionsAI.

Numeric values that the Python program holds as IEEE doubles are modelled as
exact rationals; the decimal constants of the source (3.28084, 0.75, ...) are
taken at their decimal value.  Python string operations used by the parser
(`split`, `strip`, `replace`, `startswith`, `float`, `int`) are modelled as
executable functions over character lists so that every evaluation can be
checked by the kernel.
-/

/-- The characters Python `str.strip()` removes (ASCII whitespace). -/
def isSpaceChar (c : Char) : Bool :=
  c = ' ' || c = '\t' || c = '\n' || c = '\x0d' || c = '\x0b' || c = '\x0c'

/-- Model of Python `str.strip()`: drop ASCII whitespace from both ends. -/
def pyStrip (l : List Char) : List Char :=
  ((l.dropWhile isSpaceChar).reverse.dropWhile isSpaceChar).reverse

/-- Model of Python `str.startswith(pat)` over character lists. -/
def listStartsWith : List Char → List Char → Bool
  | _, [] => true
  | [], _ :: _ => false
  | c :: cs, p :: ps => c = p && listStartsWith cs ps

/-- Model of Python `line.split(',')`: split at every comma, keeping empty
fields; the split of the empty string is one empty field. -/
def pySplitComma : List Char → List (List Char)
  | [] => [[]]
  | c :: rest =>
    if c = ',' then [] :: pySplitComma rest
    else
      match pySplitComma rest with
      | [] => [[c]]
      | f :: fs => (c :: f) :: fs

/-- Fuel-driven worker for [pyReplace]; the fuel starts at the length of the
text, which each step consumes at least one character of. -/
def replaceFuel : Nat → List Char → List Char → List Char → List Char
  | 0, l, _, _ => l
  | _ + 1, [], _, _ => []
  | fuel + 1, c :: cs, pat, repl =>
    if listStartsWith (c :: cs) pat && !pat.isEmpty then
      repl ++ replaceFuel fuel ((c :: cs).drop pat.length) pat repl
    else
      c :: replaceFuel fuel cs pat repl

/-- Model of Python `str.replace(pat, repl)` for a non-empty pattern:
replace every non-overlapping occurrence, left to right.  (The source only
ever replaces the non-empty pattern "XGPSAerofly ".) -/
def pyReplace (l pat repl : List Char) : List Char :=
  replaceFuel l.length l pat repl

/-- Numeric value of a list of decimal digits. -/
def digitsToNat (l : List Char) : Nat :=
  l.foldl (fun n c => 10 * n + (c.toNat - 48)) 0

/-- Strip one optional leading sign, returning whether it was a minus. -/
def splitSign : List Char → Bool × List Char
  | '-' :: r => (true, r)
  | '+' :: r => (false, r)
  | l => (false, l)

/-- Parse the mantissa of a decimal literal: digits with at most one point
and at least one digit overall. -/
def parseMantissa (l : List Char) : Option ℚ :=
  let ip := l.takeWhile (fun c => c ≠ '.')
  let rest := l.drop ip.length
  match rest with
  | [] =>
    if !ip.isEmpty && ip.all Char.isDigit then some (digitsToNat ip) else none
  | _ :: fp =>
    if (!ip.isEmpty || !fp.isEmpty) && ip.all Char.isDigit && fp.all Char.isDigit then
      some ((digitsToNat ip : ℚ) + (digitsToNat fp : ℚ) / ((10 : ℚ) ^ fp.length))
    else none

/-- Parse a signed decimal exponent part (the characters after `e`/`E`). -/
def parseExpPart (l : List Char) : Option Int :=
  let (eneg, d) := splitSign l
  if !d.isEmpty && d.all Char.isDigit then
    some (if eneg then -(digitsToNat d : Int) else (digitsToNat d : Int))
  else none

/-- Scale a rational by a signed power of ten. -/
def scalePow10 (m : ℚ) (e : Int) : ℚ :=
  if 0 ≤ e then m * (10 : ℚ) ^ e.toNat else m / (10 : ℚ) ^ (-e).toNat

/-- Model of Python `float(s)` restricted to finite decimal literals:
surrounding whitespace is stripped, then an optional sign, digits with an
optional decimal point (at least one digit), and an optional decimal
exponent.  The special spellings `inf`, `nan` and underscore separators,
which never occur in the telemetry handled by the claims, are outside the
model and map to `none` (Python would accept them).  The result is the exact
rational value of the literal. -/
def pyFloat? (s : List Char) : Option ℚ :=
  let l := pyStrip s
  let (neg, l) := splitSign l
  let mant := l.takeWhile (fun c => c ≠ 'e' && c ≠ 'E')
  let rest := l.drop mant.length
  match parseMantissa mant with
  | none => none
  | some m =>
    let signed := if neg then -m else m
    match rest with
    | [] => some signed
    | _ :: expChars =>
      match parseExpPart expChars with
      | none => none
      | some e => some (scalePow10 signed e)

/-- Model of Python `int(s)` on decimal strings: optional surrounding
whitespace, optional sign, at least one digit, no point. -/
def pyInt? (s : List Char) : Option Int :=
  let l := pyStrip s
  let (neg, d) := splitSign l
  if !d.isEmpty && d.all Char.isDigit then
    some (if neg then -(digitsToNat d : Int) else (digitsToNat d : Int))
  else none

/-- Python float modulo with a positive divisor:
`x % y = x - y * floor (x / y)`, always in `[0, y)` for `y > 0`.
This is the `% 360.0` used on lines 274 and 287 of the source. -/
def pymod (x y : ℚ) : ℚ := x - y * ⌊x / y⌋

/-- The heading/track normalization applied before writing the output file:
reduce to `[0, 360)` via Python float modulo (`% 360.0`). -/
def normalizeHeading (x : ℚ) : ℚ := pymod x 360

/-- GPS/position data parsed from an `XGPSAerofly` line
(class `XGPSData`, lines 158-167 of the source). -/
structure XGPSData where
  sim_name : String
  longitude : ℚ
  latitude : ℚ
  alt_msl_meters : ℚ
  track_deg : ℚ
  ground_speed_mps : ℚ
deriving DecidableEq, Repr

/-- Attitude data parsed from an `XATTAerofly` line
(class `XATTData`, lines 169-176 of the source). -/
structure XATTData where
  sim_name : String
  heading_deg : ℚ
  pitch_deg : ℚ
  roll_deg : ℚ
deriving DecidableEq, Repr

/-- Outcome of running the `XGPSAerofly` branch of the ingress loop
(lines 365-377 of the source) on one decoded UDP line. -/
inductive XGPSResult where
  /-- The line does not start with the `XGPSAerofly` marker. -/
  | notPosition
  /-- Fewer than 6 comma-separated fields: the line is silently dropped. -/
  | dropped
  /-- One of the five `float(...)` conversions raises `ValueError`; no
  handler in `broadcast` catches it (only `BlockingIOError` and
  `ConnectionClosed` are caught), so the exception escapes the loop. -/
  | valueError
  /-- A new position record is constructed. -/
  | record (g : XGPSData)
deriving DecidableEq, Repr

/-- Translation of the position branch of `broadcast`
(lines 365-377 of the source):

    if line.startswith("XGPSAerofly"):
        parts = line.split(',')
        if len(parts) >= 6:
            sim_name = parts[0].replace("XGPSAerofly ", "").strip()
            lon = float(parts[1]); lat = float(parts[2])
            alt_msl_meters = float(parts[3]); heading = float(parts[4])
            ground_speed_mps = float(parts[5])
            latest_xgps = XGPSData(sim_name, lon, lat, alt_msl_meters,
                                   heading, ground_speed_mps)
-/
def parseXGPSLine (line : String) : XGPSResult :=
  let chars := line.toList
  if listStartsWith chars ("XGPSAerofly".toList) then
    let parts := pySplitComma chars
    if 6 ≤ parts.length then
      let sim_name := pyStrip (pyReplace (parts.getD 0 []) ("XGPSAerofly ".toList) [])
      match pyFloat? (parts.getD 1 []), pyFloat? (parts.getD 2 []),
            pyFloat? (parts.getD 3 []), pyFloat? (parts.getD 4 []),
            pyFloat? (parts.getD 5 []) with
      | some lon, some lat, some alt, some hdg, some gs =>
        .record ⟨String.mk sim_name, lon, lat, alt, hdg, gs⟩
      | _, _, _, _, _ => .valueError
    else .dropped
  else .notPosition

/-- Effect of one position line on the `latest_xgps` slot and on the ingress
loop itself: `Except.error ()` marks the uncaught `ValueError` that aborts
the `broadcast` task. -/
def updateLatestXGPS (line : String) (prev : Option XGPSData) :
    Except Unit (Option XGPSData) :=
  match parseXGPSLine line with
  | .record g => .ok (some g)
  | .valueError => .error ()
  | .notPosition => .ok prev
  | .dropped => .ok prev

/-- Radio/transponder configuration controlled from the web interface
(the `radio_state` dictionary, lines 185-200 of the source).  Frequencies
and the transponder code are stored as strings, exactly as in the source;
they are converted with `float(...)` / `int(...)` when the output file is
built. -/
structure RadioState where
  com1_active : String
  com1_standby : String
  com1_power : Bool
  com2_active : String
  com2_standby : String
  com2_power : Bool
  transponder_code : String
  transponder_power : Bool
deriving DecidableEq, Repr

/-- The initial `radio_state` value from lines 185-200 of the source. -/
def initialRadioState : RadioState :=
  ⟨"118.000", "118.500", false, "118.500", "118.000", false, "1200", false⟩

/-- The shared mutable slots touched by radio staging and position
processing: `radio_state`, `pending_radio_update` and `latest_xgps`
(lines 178-200 of the source). -/
structure BridgeState where
  radio_state : RadioState
  pending_radio_update : Option RadioState
  latest_xgps : Option XGPSData
deriving DecidableEq, Repr

/-- The two kinds of events that touch the radio state machine. -/
inductive BridgeEvent where
  /-- A `radio_update` control message: `pending_radio_update = data['data']`
  (lines 484-486 of the source, same statement on lines 443-445). -/
  | radioUpdateMsg (r : RadioState)
  /-- A valid position datagram: `latest_xgps` is replaced, and, only inside
  the `if websocket_clients:` branch, a pending radio update is committed
  (lines 377 and 396-399 of the source). -/
  | positionDatagram (g : XGPSData) (clientsRegistered : Bool)
deriving DecidableEq

/-- Transition of the radio state machine, translated from the source:

    pending_radio_update = data['data']          # staging, lines 484-486
    ...
    latest_xgps = XGPSData(...)                  # line 377
    if websocket_clients:
        ...
        if pending_radio_update:
            radio_state = pending_radio_update   # lines 396-399
            pending_radio_update = None
-/
def bridgeStep (s : BridgeState) : BridgeEvent → BridgeState
  | .radioUpdateMsg r => { s with pending_radio_update := some r }
  | .positionDatagram g clients =>
    let s1 := { s with latest_xgps := some g }
    if clients then
      match s1.pending_radio_update with
      | some r => { s1 with radio_state := r, pending_radio_update := none }
      | none => s1
    else s1

/-- The Aerofly-metric to SimAPI-imperial conversion constants
(lines 132-134 of the source), at their decimal values. -/
def METERS_TO_FEET : ℚ := 328084 / 100000

/-- Meters per second to knots (line 133 of the source). -/
def MPS_TO_KTS : ℚ := 194384 / 100000

/-- Meters per second to feet per minute (line 134 of the source). -/
def MPS_TO_FPM : ℚ := 19685 / 100

/-- The guard of `write_simapi_file` (lines 219-221 of the source):

    if not websocket_clients or not latest_xgps or \
       time.time() - last_simapi_write < 0.75:
        return

The early return happens before any side effect, so a skipped call writes
nothing and changes no state. -/
def write_simapi_skip (clientsRegistered : Bool) (latest_xgps : Option XGPSData)
    (now last_simapi_write : ℚ) : Bool :=
  !clientsRegistered || latest_xgps.isNone || decide (now - last_simapi_write < 3 / 4)

/-- One call of the rate-limited writer on its success path: the result is
whether a write happened, paired with the new `last_simapi_write`
(line 323 of the source: `last_simapi_write = time.time()` runs only after
a successful write). -/
def write_simapi_attempt (clientsRegistered : Bool) (latest_xgps : Option XGPSData)
    (now last_simapi_write : ℚ) : Bool × ℚ :=
  if write_simapi_skip clientsRegistered latest_xgps now last_simapi_write then
    (false, last_simapi_write)
  else
    (true, now)

/-- The two paths on disk used by the writer: the canonical
`simAPI_input.json` and the temporary `simAPI_input.json.tmp` beside it
(lines 311-312 of the source).  `none` means the path does not exist. -/
structure FileSys where
  canonical : Option String
  temp : Option String
deriving DecidableEq, Repr

/-- Where a simulated I/O failure strikes during the commit sequence of
`write_simapi_file` (lines 315-321 of the source). -/
inductive WriteFailure where
  /-- The step `open(temp_path, 'w')` / `json.dump` fails, leaving at most a partial
  temporary file. -/
  | tempWrite
  /-- The step `os.remove(input_file_path)` fails before removing the file. -/
  | removeStep
  /-- The step `os.rename(temp_path, input_file_path)` fails, after the canonical
  file has already been removed. -/
  | renameStep
deriving DecidableEq, Repr

/-- The commit sequence of `write_simapi_file`, translated from
lines 315-321 of the source:

    with open(temp_path, 'w') as f:
        json.dump(simapi_data, f, indent=2)
    if os.path.exists(input_file_path):
        os.remove(input_file_path)
    os.rename(temp_path, input_file_path)

`content` is the serialized new JSON document and `partialContent` is
whatever a failing temporary-file write left behind.  The boolean of the
result records whether an exception was raised inside the sequence; the
`try`/`except` on lines 223 and 328-331 catches it, so it never propagates
out of `write_simapi_file`. -/
def commitFile (fs : FileSys) (content partialContent : String)
    (failure : Option WriteFailure) : FileSys × Bool :=
  match failure with
  | some .tempWrite => ({ fs with temp := some partialContent }, true)
  | some .removeStep => ({ fs with temp := some content }, true)
  | some .renameStep => ({ canonical := none, temp := some content }, true)
  | none => ({ canonical := some content, temp := none }, false)

/-- The behaviour of `write_simapi_file` around the commit sequence: failures are caught
(lines 328-331), so the call itself never raises, and `last_simapi_write`
is advanced (line 323) only when the commit succeeded. -/
def write_simapi_commit (fs : FileSys) (content partialContent : String)
    (failure : Option WriteFailure) (now last_simapi_write : ℚ) :
    FileSys × Bool × ℚ :=
  let (fs1, raised) := commitFile fs content partialContent failure
  (fs1, false, if raised then last_simapi_write else now)

/-- One plain-text position message sent on a streaming connection,
`f"{lat},{lon},{heading}"` (line 392 of the source), recorded as the
connection it is sent on and the three comma-joined values in order. -/
structure PosSend where
  target : Nat
  lat : ℚ
  lon : ℚ
  heading : ℚ
deriving DecidableEq, Repr

/-- The position messages emitted while one connection's `broadcast` task
processes a valid position datagram (lines 380-393 of the source): when
`websocket_clients` is non-empty, exactly one message is sent, on
`websocket` -- the connection owning this `broadcast` task -- carrying the
raw parsed latitude, longitude and track:

    if websocket_clients:
        ...
        position_data = f"{lat},{lon},{heading}"
        await websocket.send(position_data)
-/
def processPositionSends (owner : Nat) (websocket_clients : List Nat)
    (g : XGPSData) : List PosSend :=
  if websocket_clients.isEmpty then []
  else [⟨owner, g.latitude, g.longitude, g.track_deg⟩]

/-- The fan-out loop of `send_status_update` (lines 111-123 of the source):
iterate the membership snapshot once; a client whose send fails is collected
into `disconnected_clients`, the others receive the message.  Returns
(clients that received the message, disconnected clients), in iteration
order. -/
def statusSendPass (clients : List Nat) (fails : Nat → Bool) :
    List Nat × List Nat :=
  match clients with
  | [] => ([], [])
  | c :: rest =>
    let (recv, disc) := statusSendPass rest fails
    if fails c then (recv, c :: disc) else (c :: recv, disc)

/-- The membership handling of `send_status_update` (lines 101-123 of the source):
early return when no client is registered, otherwise one full pass over the
membership snapshot followed by
`websocket_clients.difference_update(disconnected_clients)`.  Returns the
new membership and the list of clients that received the message. -/
def send_status_update_run (websocket_clients : List Nat) (fails : Nat → Bool) :
    List Nat × List Nat :=
  if websocket_clients.isEmpty then (websocket_clients, [])
  else
    let (recv, disc) := statusSendPass websocket_clients fails
    (websocket_clients.filter (fun c => !disc.contains c), recv)

/-- The constant `CONNECTION_TIMEOUT` (line 66 of the source). -/
def CONNECTION_TIMEOUT : ℚ := 5

/-- The state read and written by the liveness logic: the monitor-local
`last_status` ("Track last status sent", line 71 of the source) and the
global `last_data_time` (line 65). -/
structure LivenessState where
  last_status : Bool
  last_data_time : ℚ
deriving DecidableEq, Repr

/-- The two events that drive sim-connected status broadcasts. -/
inductive LivenessEvent where
  /-- One iteration of `monitor_connection_status` (lines 73-91 of the
  source) at clock value `now`. -/
  | monitorTick (clientsRegistered : Bool) (now : ℚ)
  /-- A valid position datagram processed by `broadcast` at clock value
  `now` (lines 380-389 of the source): `last_data_time` is refreshed and,
  when the simulator was considered disconnected, an immediate
  `sim_connected=True` broadcast fires (the reconnect fast path). -/
  | positionData (clientsRegistered : Bool) (now : ℚ)
deriving DecidableEq

/-- One step of the liveness logic; the second component lists the
`sim_connected` values broadcast during the step.

Monitor tick (lines 78-91 of the source):

    if not websocket_clients: ... continue
    current_status = (time.time() - last_data_time) <= CONNECTION_TIMEOUT
    if current_status != last_status:
        await send_status_update(sim_connected=current_status)
        last_status = current_status

Position fast path (lines 380-389; `last_status` is a local of the monitor
coroutine, so this path cannot update it):

    was_disconnected = (time.time() - last_data_time) > CONNECTION_TIMEOUT
    last_data_time = time.time()
    if was_disconnected:
        await send_status_update(sim_connected=True)
-/
def livenessStep (s : LivenessState) : LivenessEvent → LivenessState × List Bool
  | .monitorTick clients now =>
    if !clients then (s, [])
    else
      let current_status := decide (now - s.last_data_time ≤ CONNECTION_TIMEOUT)
      if current_status ≠ s.last_status then
        ({ s with last_status := current_status }, [current_status])
      else (s, [])
  | .positionData clients now =>
    if clients then
      let was_disconnected := decide (now - s.last_data_time > CONNECTION_TIMEOUT)
      ({ s with last_data_time := now }, if was_disconnected then [true] else [])
    else ({ s with last_data_time := now }, [])

/-- A run of the liveness logic over a list of events, collecting every
`sim_connected` broadcast in order. -/
def livenessRun (s : LivenessState) : List LivenessEvent → LivenessState × List Bool
  | [] => (s, [])
  | e :: es =>
    let (s1, out1) := livenessStep s e
    let (s2, out2) := livenessRun s1 es
    (s2, out1 ++ out2)

/-- Broadcasts happen only on edge transitions: no two consecutive
broadcast values are equal.  This is the shape claim C7 asserts of every
execution. -/
def edgeTriggered (out : List Bool) : Prop :=
  List.Chain' (fun a b => a ≠ b) out

/-- The `variables` dictionary of the SimAPI document, one Lean field per
dictionary key (lines 231-296 of the source); key spelling maps spaces and
colons to underscores. -/
structure SimVars where
  PLANE_LATITUDE : ℚ
  PLANE_LONGITUDE : ℚ
  PLANE_ALTITUDE : ℚ
  GROUND_VELOCITY : ℚ
  PLANE_HEADING_DEGREES_TRUE : ℚ
  PLANE_PITCH_DEGREES : ℚ
  PLANE_BANK_DEGREES : ℚ
  VERTICAL_SPEED : ℚ
  AIRSPEED_INDICATED : ℚ
  COM_ACTIVE_FREQUENCY_1 : ℚ
  COM_STANDBY_FREQUENCY_1 : ℚ
  COM_ACTIVE_FREQUENCY_2 : ℚ
  COM_STANDBY_FREQUENCY_2 : ℚ
  COM_TRANSMIT_1 : Int
  COM_TRANSMIT_2 : Int
  COM_RECEIVE_1 : Int
  COM_RECEIVE_2 : Int
  CIRCUIT_COM_ON_1 : Int
  CIRCUIT_COM_ON_2 : Int
  NAV_ACTIVE_FREQUENCY_1 : ℚ
  NAV_STANDBY_FREQUENCY_1 : ℚ
  NAV_ACTIVE_FREQUENCY_2 : ℚ
  NAV_STANDBY_FREQUENCY_2 : ℚ
  TRANSPONDER_CODE_1 : Int
  TRANSPONDER_STATE_1 : Int
  ATC_ID : String
  PLANE_ALT_ABOVE_GROUND : ℚ
  SIM_ON_GROUND : Int
deriving DecidableEq, Inhabited

/-- Lift the result of a Python `float(...)` / `int(...)` conversion into
the exception monad: `none` is the `ValueError` that the `try` of
`write_simapi_file` (lines 223 and 328) catches. -/
def exceptOf : Option α → Except Unit α
  | some a => .ok a
  | none => .error ()

/-- The radio-derived numbers of the `variables` dictionary, converted with
`float(...)` / `int(...)` exactly where the source does
(lines 244-247 and 258): active/standby frequencies of COM1 and COM2 and
the transponder code. -/
def radioNumbers (radio_state : RadioState) :
    Except Unit (ℚ × ℚ × ℚ × ℚ × Int) := do
  let com1a ← exceptOf (pyFloat? radio_state.com1_active.toList)
  let com1s ← exceptOf (pyFloat? radio_state.com1_standby.toList)
  let com2a ← exceptOf (pyFloat? radio_state.com2_active.toList)
  let com2s ← exceptOf (pyFloat? radio_state.com2_standby.toList)
  let code ← exceptOf (pyInt? radio_state.transponder_code.toList)
  return (com1a, com1s, com2a, com2s, code)

/-- The `variables` dictionary with the radio conversions already done:
the default literal (lines 231-265), then `variables.update({...})` with
the XGPS-derived entries when a position record exists (lines 268-282),
then the XATT-derived entries, including the vertical-speed estimate, when
an attitude record exists (lines 285-296). -/
def buildVariablesCore (latest_xgps : Option XGPSData) (latest_xatt : Option XATTData)
    (radio_state : RadioState) (nums : ℚ × ℚ × ℚ × ℚ × Int) : SimVars :=
  let (com1a, com1s, com2a, com2s, code) := nums
  let base : SimVars :=
    { PLANE_LATITUDE := 0
      PLANE_LONGITUDE := 0
      PLANE_ALTITUDE := 0
      GROUND_VELOCITY := 0
      PLANE_HEADING_DEGREES_TRUE := 0
      PLANE_PITCH_DEGREES := 0
      PLANE_BANK_DEGREES := 0
      VERTICAL_SPEED := 0
      AIRSPEED_INDICATED := 0
      COM_ACTIVE_FREQUENCY_1 := com1a
      COM_STANDBY_FREQUENCY_1 := com1s
      COM_ACTIVE_FREQUENCY_2 := com2a
      COM_STANDBY_FREQUENCY_2 := com2s
      COM_TRANSMIT_1 := if radio_state.com1_power then 1 else 0
      COM_TRANSMIT_2 := if radio_state.com2_power then 1 else 0
      COM_RECEIVE_1 := if radio_state.com1_power then 1 else 0
      COM_RECEIVE_2 := if radio_state.com2_power then 1 else 0
      CIRCUIT_COM_ON_1 := if radio_state.com1_power then 1 else 0
      CIRCUIT_COM_ON_2 := if radio_state.com2_power then 1 else 0
      NAV_ACTIVE_FREQUENCY_1 := 110
      NAV_STANDBY_FREQUENCY_1 := 1105 / 10
      NAV_ACTIVE_FREQUENCY_2 := 111
      NAV_STANDBY_FREQUENCY_2 := 1115 / 10
      TRANSPONDER_CODE_1 := code
      TRANSPONDER_STATE_1 := if radio_state.transponder_power then 4 else 0
      ATC_ID := "N250VB"
      PLANE_ALT_ABOVE_GROUND := 0
      SIM_ON_GROUND := 1 }
  let afterGps : SimVars :=
    match latest_xgps with
    | some g =>
      { base with
        PLANE_LATITUDE := g.latitude
        PLANE_LONGITUDE := g.longitude
        PLANE_ALTITUDE := g.alt_msl_meters * METERS_TO_FEET
        GROUND_VELOCITY := g.ground_speed_mps * MPS_TO_KTS
        PLANE_HEADING_DEGREES_TRUE := normalizeHeading g.track_deg
        AIRSPEED_INDICATED := g.ground_speed_mps * MPS_TO_KTS
        SIM_ON_GROUND :=
          if g.alt_msl_meters < 10 ∧ g.ground_speed_mps < 1 then 1 else 0
        PLANE_ALT_ABOVE_GROUND := max 0 (g.alt_msl_meters * METERS_TO_FEET - 50) }
    | none => base
  match latest_xatt with
  | some a =>
    let v1 :=
      { afterGps with
        PLANE_HEADING_DEGREES_TRUE := normalizeHeading a.heading_deg
        PLANE_PITCH_DEGREES := a.pitch_deg
        PLANE_BANK_DEGREES := a.roll_deg }
    match latest_xgps with
    | some g =>
      let pitch_radians := a.pitch_deg * (314159 / 100000 / 180)
      let vertical_component := g.ground_speed_mps * max (-1) (min 1 pitch_radians)
      { v1 with VERTICAL_SPEED := vertical_component * MPS_TO_FPM }
    | none => v1
  | none => afterGps

/-- The full `variables` construction of `write_simapi_file`
(lines 231-296 of the source): the radio string-to-number conversions may
raise, everything else is total. -/
def buildVariables (latest_xgps : Option XGPSData) (latest_xatt : Option XATTData)
    (radio_state : RadioState) : Except Unit SimVars :=
  (radioNumbers radio_state).map (buildVariablesCore latest_xgps latest_xatt radio_state)

/-- The variables actually produced for a state, with the bridge default
as the value of the unreachable error case; used to state closed witnesses. -/
def variablesOf (latest_xgps : Option XGPSData) (latest_xatt : Option XATTData)
    (radio_state : RadioState) : SimVars :=
  match buildVariables latest_xgps latest_xatt radio_state with
  | .ok v => v
  | .error _ => default

/-- A sample position record: track 370 degrees, 100 m altitude, 50 m/s. -/
def sampleXGPS : XGPSData := ⟨"FS 4", 5, 6, 100, 370, 50⟩

/-- A sample attitude record: heading -10 degrees, pitch 10, roll 0. -/
def sampleXATT : XATTData := ⟨"FS 4", -10, 10, 0⟩

/-! ## Helper lemmas -/

/-- The writer call is exactly a guarded pair. -/
theorem write_simapi_attempt_eq (c : Bool) (gps : Option XGPSData) (now l : ℚ) :
    write_simapi_attempt c gps now l =
      if write_simapi_skip c gps now l then (false, l) else (true, now) := rfl

/-- Unsuccessful builds are impossible modulo the radio conversions: a
successful `buildVariables` is the core construction on the converted
radio numbers. -/
theorem buildVariables_ok {gps : Option XGPSData} {att : Option XATTData}
    {r : RadioState} {v : SimVars} (h : buildVariables gps att r = .ok v) :
    ∃ nums, radioNumbers r = .ok nums ∧ v = buildVariablesCore gps att r nums := by
  unfold buildVariables at h
  cases hr : radioNumbers r with
  | error e => rw [hr] at h; simp [Except.map] at h
  | ok nums =>
    rw [hr] at h
    simp only [Except.map, Except.ok.injEq] at h
    exact ⟨nums, rfl, h.symm⟩

/-- Python float modulo by 360 is 360 times the fractional part of the
quotient. -/
theorem normalizeHeading_eq_fract (x : ℚ) :
    normalizeHeading x = 360 * Int.fract (x / 360) := by
  unfold normalizeHeading pymod Int.fract
  rw [mul_sub, mul_div_cancel₀ x (by norm_num : (360 : ℚ) ≠ 0)]

/-- One pass of the status fan-out delivers to exactly the non-failing
clients and collects exactly the failing ones, in iteration order. -/
theorem statusSendPass_eq (clients : List Nat) (fails : Nat → Bool) :
    statusSendPass clients fails =
      (clients.filter (fun c => !fails c), clients.filter fails) := by
  induction clients with
  | nil => rfl
  | cons c rest ih =>
    by_cases h : fails c <;> simp [statusSendPass, ih, h, List.filter_cons]

/-- A run of liveness events that are all monitor ticks whose derived
status equals the tracked `last_status` emits no broadcast and leaves the
state unchanged. -/
theorem livenessRun_steady (s : LivenessState) :
    ∀ events : List LivenessEvent,
      (∀ e ∈ events, ∃ cl t, e = .monitorTick cl t ∧
          decide (t - s.last_data_time ≤ CONNECTION_TIMEOUT) = s.last_status) →
      livenessRun s events = (s, []) := by
  intro events
  induction events with
  | nil => intro _; rfl
  | cons e es ih =>
    intro h
    obtain ⟨cl, t, rfl, hd⟩ := h _ (List.mem_cons_self e es)
    have hstep : livenessStep s (.monitorTick cl t) = (s, []) := by
      cases cl with
      | false => simp [livenessStep]
      | true =>
        simp only [livenessStep, Bool.not_true, Bool.false_eq_true, if_false, hd,
          ne_eq, not_true_eq_false, if_neg, ite_eq_right_iff]
    have hrest := ih fun e he => h e (List.mem_cons_of_mem _ he)
    simp [livenessRun, hstep, hrest]

/-- The normalized heading is never negative. -/
theorem normalizeHeading_nonneg (x : ℚ) : 0 ≤ normalizeHeading x := by
  rw [normalizeHeading_eq_fract]
  exact mul_nonneg (by norm_num) (Int.fract_nonneg _)

/-- The normalized heading is below 360. -/
theorem normalizeHeading_lt_360 (x : ℚ) : normalizeHeading x < 360 := by
  rw [normalizeHeading_eq_fract]
  calc 360 * Int.fract (x / 360) < 360 * 1 :=
        mul_lt_mul_of_pos_left (Int.fract_lt_one _) (by norm_num)
    _ = 360 := mul_one 360

/-- With both records present, the written heading is the normalized
attitude heading. -/
theorem heading_field_with_att {g : XGPSData} {a : XATTData} {r : RadioState}
    {v : SimVars} (hv : buildVariables (some g) (some a) r = .ok v) :
    v.PLANE_HEADING_DEGREES_TRUE = normalizeHeading a.heading_deg := by
  obtain ⟨⟨c1a, c1s, c2a, c2s, code⟩, _, rfl⟩ := buildVariables_ok hv
  simp [buildVariablesCore]

/-- With only a position record, the written heading is the normalized
track. -/
theorem heading_field_no_att {g : XGPSData} {r : RadioState} {w : SimVars}
    (hw : buildVariables (some g) none r = .ok w) :
    w.PLANE_HEADING_DEGREES_TRUE = normalizeHeading g.track_deg := by
  obtain ⟨⟨c1a, c1s, c2a, c2s, code⟩, _, rfl⟩ := buildVariables_ok hw
  simp [buildVariablesCore]

/-! ## Claims -/

/-- C2: a staged radio update is invisible in the state snapshot (and in
the variables of the written output file) until the next valid position
datagram is processed by a connection's broadcast task, at which moment it
is committed in full and the pending slot is cleared; staging twice before
any position datagram leaves only the second update staged (at most one
pending update, last-write-wins). -/
theorem C2_radio_staging (s : BridgeState) (r r1 r2 p : RadioState)
    (g : XGPSData) (att : Option XATTData) :
    (bridgeStep s (.radioUpdateMsg r)).radio_state = s.radio_state ∧
    (bridgeStep s (.radioUpdateMsg r)).pending_radio_update = some r ∧
    buildVariables (bridgeStep s (.radioUpdateMsg r)).latest_xgps att
        (bridgeStep s (.radioUpdateMsg r)).radio_state
      = buildVariables s.latest_xgps att s.radio_state ∧
    (bridgeStep (bridgeStep s (.radioUpdateMsg r1)) (.radioUpdateMsg r2)).pending_radio_update
      = some r2 ∧
    (bridgeStep (bridgeStep s (.radioUpdateMsg r1)) (.radioUpdateMsg r2)).radio_state
      = s.radio_state ∧
    (bridgeStep { s with pending_radio_update := some p }
        (.positionDatagram g true)).radio_state = p ∧
    (bridgeStep { s with pending_radio_update := some p }
        (.positionDatagram g true)).pending_radio_update = none ∧
    (bridgeStep { s with pending_radio_update := some p }
        (.positionDatagram g true)).latest_xgps = some g ∧
    (bridgeStep { s with pending_radio_update := none }
        (.positionDatagram g true)).radio_state = s.radio_state ∧
    (bridgeStep { s with pending_radio_update := none }
        (.positionDatagram g true)).pending_radio_update = none := by
  refine ⟨rfl, rfl, rfl, rfl, rfl, ?_, ?_, ?_, ?_, ?_⟩ <;> simp [bridgeStep]

/-- C8: the heading/track normalization used for the output file reduces
every rational input to `[0, 360)` via Python float modulo; in particular
`normalize 370 = 10`, `normalize (-10) = 350`, `normalize 360 = 0`, and the
`PLANE HEADING DEGREES TRUE` field of the built variables is the normalized
attitude heading when an attitude record is present, else the normalized
track. -/
theorem C8_heading_normalization (x : ℚ) (g : XGPSData) (a : XATTData)
    (r : RadioState) (v w : SimVars)
    (hv : buildVariables (some g) (some a) r = .ok v)
    (hw : buildVariables (some g) none r = .ok w) :
    (0 ≤ normalizeHeading x ∧ normalizeHeading x < 360) ∧
    normalizeHeading 370 = 10 ∧
    normalizeHeading (-10) = 350 ∧
    normalizeHeading 360 = 0 ∧
    v.PLANE_HEADING_DEGREES_TRUE = normalizeHeading a.heading_deg ∧
    w.PLANE_HEADING_DEGREES_TRUE = normalizeHeading g.track_deg := by
  refine ⟨⟨normalizeHeading_nonneg x, normalizeHeading_lt_360 x⟩, ?_, ?_, ?_,
    heading_field_with_att hv, heading_field_no_att hw⟩
  · with_unfolding_all rfl
  · with_unfolding_all rfl
  · with_unfolding_all rfl

/-- Witness for C8 at track 370 and heading -10 with the initial radio
state. -/
theorem C8_heading_normalization_witness :
    (0 ≤ normalizeHeading 725 ∧ normalizeHeading 725 < 360) ∧
    normalizeHeading 370 = 10 ∧
    normalizeHeading (-10) = 350 ∧
    normalizeHeading 360 = 0 ∧
    (variablesOf (some sampleXGPS) (some sampleXATT) initialRadioState).PLANE_HEADING_DEGREES_TRUE
      = normalizeHeading sampleXATT.heading_deg ∧
    (variablesOf (some sampleXGPS) none initialRadioState).PLANE_HEADING_DEGREES_TRUE
      = normalizeHeading sampleXGPS.track_deg :=
  C8_heading_normalization 725 sampleXGPS sampleXATT initialRadioState
    (variablesOf (some sampleXGPS) (some sampleXATT) initialRadioState)
    (variablesOf (some sampleXGPS) none initialRadioState)
    (by with_unfolding_all rfl) (by with_unfolding_all rfl)

/-- C9: the vertical-speed field of the built variables is computed only
when both a position and an attitude record are present, in which case it
equals the ground speed times the pitch angle in radians (the source
converts with the constant 3.14159/180) clamped to `[-1, 1]`, times 196.85
(m/s to feet per minute); when either record is absent it keeps its default
value 0. -/
theorem C9_vertical_speed (g : XGPSData) (a : XATTData) (r : RadioState)
    (v vg va v0 : SimVars)
    (hv : buildVariables (some g) (some a) r = .ok v)
    (hg : buildVariables (some g) none r = .ok vg)
    (ha : buildVariables none (some a) r = .ok va)
    (h0 : buildVariables none none r = .ok v0) :
    v.VERTICAL_SPEED =
      g.ground_speed_mps * max (-1) (min 1 (a.pitch_deg * (314159 / 100000 / 180)))
        * MPS_TO_FPM ∧
    vg.VERTICAL_SPEED = 0 ∧
    va.VERTICAL_SPEED = 0 ∧
    v0.VERTICAL_SPEED = 0 := by
  obtain ⟨⟨c1a, c1s, c2a, c2s, code⟩, _, rfl⟩ := buildVariables_ok hv
  obtain ⟨⟨d1a, d1s, d2a, d2s, dode⟩, _, rfl⟩ := buildVariables_ok hg
  obtain ⟨⟨e1a, e1s, e2a, e2s, eode⟩, _, rfl⟩ := buildVariables_ok ha
  obtain ⟨⟨f1a, f1s, f2a, f2s, fode⟩, _, rfl⟩ := buildVariables_ok h0
  refine ⟨?_, rfl, rfl, rfl⟩
  simp [buildVariablesCore]

/-- Witness for C9 with the sample records and the initial radio state. -/
theorem C9_vertical_speed_witness :
    (variablesOf (some sampleXGPS) (some sampleXATT) initialRadioState).VERTICAL_SPEED =
      sampleXGPS.ground_speed_mps *
        max (-1) (min 1 (sampleXATT.pitch_deg * (314159 / 100000 / 180))) * MPS_TO_FPM ∧
    (variablesOf (some sampleXGPS) none initialRadioState).VERTICAL_SPEED = 0 ∧
    (variablesOf none (some sampleXATT) initialRadioState).VERTICAL_SPEED = 0 ∧
    (variablesOf none none initialRadioState).VERTICAL_SPEED = 0 :=
  C9_vertical_speed sampleXGPS sampleXATT initialRadioState
    (variablesOf (some sampleXGPS) (some sampleXATT) initialRadioState)
    (variablesOf (some sampleXGPS) none initialRadioState)
    (variablesOf none (some sampleXATT) initialRadioState)
    (variablesOf none none initialRadioState)
    (by with_unfolding_all rfl) (by with_unfolding_all rfl)
    (by with_unfolding_all rfl) (by with_unfolding_all rfl)

/-- C3 counterexample: with a client registered and a position record
present, two writer calls 0.1 seconds apart (at 0.1 and 0.2, with the last
successful write at 0) are within 0.75 seconds of each other, yet neither
writes -- zero writes, not exactly one. -/
theorem C3_counterexample :
    ((2 : ℚ) / 10 - 1 / 10 < 3 / 4) ∧
    (write_simapi_attempt true (some sampleXGPS) (1 / 10) 0).1 = false ∧
    (write_simapi_attempt true (some sampleXGPS) (2 / 10)
      (write_simapi_attempt true (some sampleXGPS) (1 / 10) 0).2).1 = false := by
  refine ⟨by norm_num, ?_, ?_⟩ <;> with_unfolding_all rfl

/-- C3 (amended): the writer is a no-op -- it writes nothing and leaves the
last-write timestamp unchanged -- unless a client is registered, a position
record exists and at least 0.75 s elapsed since the last successful write;
consequently two calls within 0.75 s of each other produce at most one
write, and exactly one when the first call meets all three conditions. -/
theorem C3_rate_limiting (clients1 clients2 : Bool)
    (gps1 gps2 : Option XGPSData) (now1 now2 last : ℚ)
    (hgap : now2 - now1 < 3 / 4) :
    (∀ (c : Bool) (gps : Option XGPSData) (now l : ℚ),
        ¬(c = true ∧ gps.isSome = true ∧ 3 / 4 ≤ now - l) →
        write_simapi_attempt c gps now l = (false, l)) ∧
    ¬((write_simapi_attempt clients1 gps1 now1 last).1 = true ∧
      (write_simapi_attempt clients2 gps2 now2
        (write_simapi_attempt clients1 gps1 now1 last).2).1 = true) ∧
    (clients1 = true → gps1.isSome = true → 3 / 4 ≤ now1 - last →
      (write_simapi_attempt clients1 gps1 now1 last).1 = true ∧
      (write_simapi_attempt clients2 gps2 now2
        (write_simapi_attempt clients1 gps1 now1 last).2).1 = false) := by
  have hnoop : ∀ (c : Bool) (gps : Option XGPSData) (now l : ℚ),
      ¬(c = true ∧ gps.isSome = true ∧ 3 / 4 ≤ now - l) →
      write_simapi_attempt c gps now l = (false, l) := by
    intro c gps now l h
    rw [write_simapi_attempt_eq]
    cases c with
    | false => simp [write_simapi_skip]
    | true =>
      cases gps with
      | none => simp [write_simapi_skip]
      | some g =>
        by_cases hlt : now - l < 3 / 4
        · simp [write_simapi_skip, hlt]
        · exact absurd ⟨rfl, rfl, le_of_not_lt hlt⟩ h
  have hwrite : ∀ (c : Bool) (gps : Option XGPSData) (now l : ℚ),
      c = true → gps.isSome = true → 3 / 4 ≤ now - l →
      write_simapi_attempt c gps now l = (true, now) := by
    intro c gps now l hc hg hle
    subst hc
    cases gps with
    | none => simp at hg
    | some g =>
      rw [write_simapi_attempt_eq]
      simp [write_simapi_skip, not_lt_of_le hle]
  refine ⟨hnoop, ?_, ?_⟩
  · rintro ⟨h1, h2⟩
    have e1 : write_simapi_attempt clients1 gps1 now1 last = (true, now1) := by
      rw [write_simapi_attempt_eq] at h1 ⊢
      by_cases hs : write_simapi_skip clients1 gps1 now1 last
      · rw [if_pos hs] at h1; exact absurd h1 (by simp)
      · rw [if_neg hs]
    rw [e1] at h2
    have e2 : write_simapi_attempt clients2 gps2 now2 now1 = (false, now1) := by
      apply hnoop
      rintro ⟨-, -, hle⟩
      exact absurd hgap (not_lt_of_le hle)
    rw [e2] at h2
    exact absurd h2 (by simp)
  · intro hc hg hle
    have e1 := hwrite clients1 gps1 now1 last hc hg hle
    rw [e1]
    refine ⟨rfl, ?_⟩
    have e2 : write_simapi_attempt clients2 gps2 now2 now1 = (false, now1) := by
      apply hnoop
      rintro ⟨-, -, hle2⟩
      exact absurd hgap (not_lt_of_le hle2)
    rw [e2]

/-- Witness for C3 (amended): last write at 0, calls at 1 and 1.25. -/
theorem C3_rate_limiting_witness :
    (write_simapi_attempt true (some sampleXGPS) 1 0).1 = true ∧
    (write_simapi_attempt true (some sampleXGPS) (5 / 4)
      (write_simapi_attempt true (some sampleXGPS) 1 0).2).1 = false :=
  (C3_rate_limiting true true (some sampleXGPS) (some sampleXGPS) 1 (5 / 4) 0
    (by norm_num)).2.2 rfl rfl (by norm_num)

/-- C5 counterexample: two clients (1 and 2) are registered and connection
1's broadcast task processes a valid position datagram; the position text
is sent only on connection 1, and client 2 -- live and registered --
receives nothing. -/
theorem C5_counterexample :
    2 ∈ [1, 2] ∧
    processPositionSends 1 [1, 2] sampleXGPS = [⟨1, 6, 5, 370⟩] ∧
    (processPositionSends 1 [1, 2] sampleXGPS).map PosSend.target = [1] := by
  refine ⟨by simp, rfl, rfl⟩

/-- C5 (amended): while clients are registered, the plain-text position
message for a valid position datagram is sent exactly once, on the single
connection whose broadcast task received the datagram -- so every
registered client receives it only in the single-client case. -/
theorem C5_send_targets (owner : Nat) (clients : List Nat) (g : XGPSData)
    (h : clients ≠ []) :
    processPositionSends owner clients g =
      [⟨owner, g.latitude, g.longitude, g.track_deg⟩] ∧
    (processPositionSends owner clients g).map PosSend.target = [owner] ∧
    (clients = [owner] →
      ∀ c ∈ clients, c ∈ (processPositionSends owner clients g).map PosSend.target) := by
  have hne : clients.isEmpty = false := by
    cases clients with
    | nil => exact absurd rfl h
    | cons a l => rfl
  refine ⟨?_, ?_, ?_⟩
  · simp [processPositionSends, hne]
  · simp [processPositionSends, hne]
  · intro hc c hmem
    subst hc
    simp at hmem
    simp [processPositionSends, hmem]

/-- Witness for C5 (amended): one registered client, which is the owner. -/
theorem C5_send_targets_witness :
    processPositionSends 1 [1] sampleXGPS =
      [⟨1, sampleXGPS.latitude, sampleXGPS.longitude, sampleXGPS.track_deg⟩] ∧
    (processPositionSends 1 [1] sampleXGPS).map PosSend.target = [1] ∧
    ([1] = [1] → ∀ c ∈ [1], c ∈ (processPositionSends 1 [1] sampleXGPS).map PosSend.target) :=
  C5_send_targets 1 [1] sampleXGPS (by simp)

/-- C10: for a position line parsed into a record `g` and processed while a
client is connected, the streamed position payload is exactly the parsed
latitude, longitude and track in that order, with the track streamed raw --
not reduced modulo 360 and not replaced by the attitude heading -- while
the heading written to the output file is the normalized attitude heading
(or normalized track without an attitude record) and always lies in
`[0, 360)`. -/
theorem C10_streamed_raw_track (owner : Nat) (clients : List Nat)
    (line : String) (g : XGPSData) (a : XATTData) (r : RadioState)
    (v w : SimVars) (hc : clients ≠ []) (hp : parseXGPSLine line = .record g)
    (hv : buildVariables (some g) (some a) r = .ok v)
    (hw : buildVariables (some g) none r = .ok w) :
    processPositionSends owner clients g =
      [⟨owner, g.latitude, g.longitude, g.track_deg⟩] ∧
    v.PLANE_HEADING_DEGREES_TRUE = normalizeHeading a.heading_deg ∧
    w.PLANE_HEADING_DEGREES_TRUE = normalizeHeading g.track_deg ∧
    (0 ≤ w.PLANE_HEADING_DEGREES_TRUE ∧ w.PLANE_HEADING_DEGREES_TRUE < 360) := by
  have hne : clients.isEmpty = false := by
    cases clients with
    | nil => exact absurd rfl hc
    | cons x l => rfl
  refine ⟨by simp [processPositionSends, hne], heading_field_with_att hv,
    heading_field_no_att hw, ?_⟩
  rw [heading_field_no_att hw]
  exact ⟨normalizeHeading_nonneg _, normalizeHeading_lt_360 _⟩

/-- Witness for C10: the line parses to the sample record with track 370;
the streamed heading is the raw 370 while the file heading is 10. -/
theorem C10_streamed_raw_track_witness :
    processPositionSends 1 [1] sampleXGPS =
      [⟨1, sampleXGPS.latitude, sampleXGPS.longitude, sampleXGPS.track_deg⟩] ∧
    (variablesOf (some sampleXGPS) (some sampleXATT) initialRadioState).PLANE_HEADING_DEGREES_TRUE
      = normalizeHeading sampleXATT.heading_deg ∧
    (variablesOf (some sampleXGPS) none initialRadioState).PLANE_HEADING_DEGREES_TRUE
      = normalizeHeading sampleXGPS.track_deg ∧
    (0 ≤ (variablesOf (some sampleXGPS) none initialRadioState).PLANE_HEADING_DEGREES_TRUE ∧
      (variablesOf (some sampleXGPS) none initialRadioState).PLANE_HEADING_DEGREES_TRUE < 360) :=
  C10_streamed_raw_track 1 [1] "XGPSAerofly FS 4,5,6,100,370,50" sampleXGPS
    sampleXATT initialRadioState
    (variablesOf (some sampleXGPS) (some sampleXATT) initialRadioState)
    (variablesOf (some sampleXGPS) none initialRadioState)
    (by simp) (by with_unfolding_all rfl)
    (by with_unfolding_all rfl) (by with_unfolding_all rfl)

/-- A tick with clients registered unfolds to the edge-triggered
conditional. -/
theorem livenessStep_tick_true (s : LivenessState) (now : ℚ) :
    livenessStep s (.monitorTick true now) =
      (if decide (now - s.last_data_time ≤ CONNECTION_TIMEOUT) ≠ s.last_status then
        ({ s with last_status := decide (now - s.last_data_time ≤ CONNECTION_TIMEOUT) },
         [decide (now - s.last_data_time ≤ CONNECTION_TIMEOUT)])
      else (s, [])) := rfl

/-- C6: broadcasting a status update to registered clients where exactly
client `k`'s send fails evicts exactly `k` from the membership used by
subsequent broadcasts, while every one of the other clients still receives
the current message; the pass iterates the membership snapshot and prunes
failures only afterwards. -/
theorem C6_client_eviction (clients : List Nat) (k : Nat) (fails : Nat → Bool)
    (hnd : clients.Nodup) (hk : k ∈ clients)
    (hf : ∀ c, fails c = decide (c = k)) :
    (send_status_update_run clients fails).1 = clients.erase k ∧
    (send_status_update_run clients fails).2 = clients.erase k ∧
    k ∉ (send_status_update_run clients fails).1 ∧
    (∀ c ∈ clients, c ≠ k → c ∈ (send_status_update_run clients fails).2) ∧
    (send_status_update_run clients fails).2.length + 1 = clients.length := by
  have hne : clients.isEmpty = false := by
    cases clients with
    | nil => exact absurd hk (List.not_mem_nil k)
    | cons a l => rfl
  have hrun : send_status_update_run clients fails =
      (clients.filter (fun c => !(clients.filter fails).contains c),
       clients.filter (fun c => !fails c)) := by
    unfold send_status_update_run
    rw [hne]
    simp only [Bool.false_eq_true, if_false, statusSendPass_eq]
  have hpoint : ∀ c ∈ clients,
      (fun c => !(clients.filter fails).contains c) c = (fun c => !fails c) c := by
    intro c hc
    cases h : fails c with
    | true =>
      have hcon : (clients.filter fails).contains c = true :=
        List.elem_iff.mpr (List.mem_filter.mpr ⟨hc, h⟩)
      show (!(clients.filter fails).contains c) = (!fails c)
      rw [hcon, h]
    | false =>
      have hcon : (clients.filter fails).contains c = false := by
        cases hb : (clients.filter fails).contains c with
        | false => rfl
        | true =>
          exfalso
          have hmem := (List.mem_filter.mp (List.elem_iff.mp hb)).2
          rw [h] at hmem
          exact Bool.false_ne_true hmem
      show (!(clients.filter fails).contains c) = (!fails c)
      rw [hcon, h]
  have hfilter2 : ∀ c ∈ clients, (fun c => !fails c) c = (fun c => c != k) c := by
    intro c _
    by_cases hck : c = k <;> simp [hf, hck]
  have herase : clients.filter (fun c => !fails c) = clients.erase k := by
    rw [List.filter_congr hfilter2, hnd.erase_eq_filter k]
  have hmemb : (send_status_update_run clients fails).1 = clients.erase k := by
    rw [hrun]
    show clients.filter (fun c => !(clients.filter fails).contains c) = clients.erase k
    rw [List.filter_congr hpoint]
    exact herase
  have hrecv : (send_status_update_run clients fails).2 = clients.erase k := by
    rw [hrun]
    exact herase
  refine ⟨hmemb, hrecv, ?_, ?_, ?_⟩
  · rw [hmemb]
    exact hnd.not_mem_erase
  · intro c hc hck
    rw [hrecv, hnd.erase_eq_filter k]
    exact List.mem_filter.mpr ⟨hc, by simp [hck]⟩
  · rw [hrecv, List.length_erase_of_mem hk]
    have : 0 < clients.length := List.length_pos.mpr (List.ne_nil_of_mem hk)
    omega

/-- Witness for C6: clients 1, 2, 3 where exactly client 2's send fails. -/
theorem C6_client_eviction_witness :
    (send_status_update_run [1, 2, 3] (fun c => decide (c = 2))).1 = [1, 2, 3].erase 2 ∧
    (send_status_update_run [1, 2, 3] (fun c => decide (c = 2))).2 = [1, 2, 3].erase 2 ∧
    2 ∉ (send_status_update_run [1, 2, 3] (fun c => decide (c = 2))).1 ∧
    (send_status_update_run [1, 2, 3] (fun c => decide (c = 2))).2.length + 1
      = [1, 2, 3].length :=
  have h := C6_client_eviction [1, 2, 3] 2 (fun c => decide (c = 2))
    (by decide) (by decide) (fun c => rfl)
  ⟨h.1, h.2.1, h.2.2.1, h.2.2.2.2⟩

/-- C7 counterexample: with a client registered throughout, the simulator
silent since startup (clock 0) and the monitor's tracked status `false`, a
position datagram at clock 10 fires the reconnect fast path
(`sim_connected=True`), and the next monitor tick at clock 11 -- whose
local `last_status` was not updated by the fast path -- broadcasts
`sim_connected=True` again: two consecutive status broadcasts with no
change of the derived connected state between them. -/
theorem C7_counterexample :
    (livenessRun ⟨false, 0⟩ [.positionData true 10, .monitorTick true 11]).2
      = [true, true] ∧
    ¬ edgeTriggered
      (livenessRun ⟨false, 0⟩ [.positionData true 10, .monitorTick true 11]).2 := by
  have h : (livenessRun ⟨false, 0⟩ [.positionData true 10, .monitorTick true 11]).2
      = [true, true] := by
    with_unfolding_all rfl
  refine ⟨h, ?_⟩
  rw [h]
  simp [edgeTriggered]

/-- C7 (amended): the periodic monitor broadcasts the derived connected
value exactly when it differs from the monitor's own last-sent status --
flipping to connected after data within the timeout, flipping to
disconnected after silence beyond it -- and never broadcasts on a tick
whose derived status equals the tracked one, nor on any run of ticks with
unchanged derived status, nor while no client is registered; the reconnect
fast path, however, emits its broadcast without updating the monitor's
tracked status, so consecutive broadcasts of the whole program need not
differ (see the counterexample). -/
theorem C7_monitor_edge_only (d now t : ℚ) (s : LivenessState)
    (events : List LivenessEvent)
    (hconn : now - d ≤ CONNECTION_TIMEOUT)
    (hdis : CONNECTION_TIMEOUT < t - d)
    (hsteady : ∀ e ∈ events, ∃ cl u, e = .monitorTick cl u ∧
        decide (u - s.last_data_time ≤ CONNECTION_TIMEOUT) = s.last_status) :
    livenessStep ⟨false, d⟩ (.monitorTick true now) = (⟨true, d⟩, [true]) ∧
    livenessStep ⟨true, d⟩ (.monitorTick true now) = (⟨true, d⟩, []) ∧
    livenessStep ⟨true, d⟩ (.monitorTick true t) = (⟨false, d⟩, [false]) ∧
    livenessStep ⟨false, d⟩ (.monitorTick true t) = (⟨false, d⟩, []) ∧
    livenessStep s (.monitorTick false now) = (s, []) ∧
    (livenessRun s events).2 = [] := by
  have hc1 : decide (now - d ≤ CONNECTION_TIMEOUT) = true := decide_eq_true hconn
  have hc2 : decide (t - d ≤ CONNECTION_TIMEOUT) = false :=
    decide_eq_false (not_le_of_lt hdis)
  have hemit : ∀ (s1 : LivenessState) (u : ℚ),
      decide (u - s1.last_data_time ≤ CONNECTION_TIMEOUT) ≠ s1.last_status →
      livenessStep s1 (.monitorTick true u) =
        ({ s1 with last_status := decide (u - s1.last_data_time ≤ CONNECTION_TIMEOUT) },
         [decide (u - s1.last_data_time ≤ CONNECTION_TIMEOUT)]) := by
    intro s1 u h
    rw [livenessStep_tick_true, if_pos h]
  have hskip : ∀ (s1 : LivenessState) (u : ℚ),
      decide (u - s1.last_data_time ≤ CONNECTION_TIMEOUT) = s1.last_status →
      livenessStep s1 (.monitorTick true u) = (s1, []) := by
    intro s1 u h
    rw [livenessStep_tick_true, if_neg (not_not_intro h)]
  refine ⟨?_, hskip ⟨true, d⟩ now hc1, ?_, hskip ⟨false, d⟩ t hc2, rfl, ?_⟩
  · have e1 : livenessStep ⟨false, d⟩ (.monitorTick true now) =
        ({ last_status := decide (now - d ≤ CONNECTION_TIMEOUT), last_data_time := d },
         [decide (now - d ≤ CONNECTION_TIMEOUT)]) :=
      hemit ⟨false, d⟩ now (by
        show decide (now - d ≤ CONNECTION_TIMEOUT) ≠ false
        rw [hc1]
        simp)
    rw [e1, hc1]
  · have e3 : livenessStep ⟨true, d⟩ (.monitorTick true t) =
        ({ last_status := decide (t - d ≤ CONNECTION_TIMEOUT), last_data_time := d },
         [decide (t - d ≤ CONNECTION_TIMEOUT)]) :=
      hemit ⟨true, d⟩ t (by
        show decide (t - d ≤ CONNECTION_TIMEOUT) ≠ true
        rw [hc2]
        simp)
    rw [e3, hc2]
  · rw [livenessRun_steady s events hsteady]

/-- Witness for C7 (amended): timeout boundary at 5 s, data at clock 0,
ticks at clocks 2 (within timeout) and 10 (beyond); steady run of two
ticks both deriving the disconnected status already tracked. -/
theorem C7_monitor_edge_only_witness :
    livenessStep ⟨false, 0⟩ (.monitorTick true 2) = (⟨true, 0⟩, [true]) ∧
    livenessStep ⟨true, 0⟩ (.monitorTick true 10) = (⟨false, 0⟩, [false]) ∧
    livenessStep ⟨false, 0⟩ (.monitorTick false 2) = (⟨false, 0⟩, []) ∧
    (livenessRun ⟨false, 0⟩ [.monitorTick true 20, .monitorTick false 30]).2 = [] :=
  have h := C7_monitor_edge_only 0 2 10 ⟨false, 0⟩
    [.monitorTick true 20, .monitorTick false 30]
    (by norm_num [CONNECTION_TIMEOUT]) (by norm_num [CONNECTION_TIMEOUT])
    (by
      intro e he
      simp only [List.mem_cons, List.not_mem_nil, or_false] at he
      rcases he with rfl | rfl
      · exact ⟨true, 20, rfl, by norm_num [CONNECTION_TIMEOUT]⟩
      · exact ⟨false, 30, rfl, by norm_num [CONNECTION_TIMEOUT]⟩)
  ⟨h.1, h.2.2.1, h.2.2.2.2.1, h.2.2.2.2.2⟩

/-- C1: evaluation of the position-line branch.  A line with at least six
fields whose numeric fields all parse yields the record of the parsed
floats in order (name, longitude, latitude, altitude, track, ground
speed); a line with fewer than six fields is silently dropped, leaving the
previous record; but a line with a non-numeric numeric field makes
`float(...)` raise a `ValueError` that no handler in `broadcast` catches,
refuting the claim that no exception escapes the ingress loop. -/
theorem C1_position_parse_eval :
    parseXGPSLine "XGPSAerofly FS 4,-122.5,47.25,123.4,270.0,65.0" =
      .record ⟨"FS 4", -122.5, 47.25, 123.4, 270, 65⟩ ∧
    parseXGPSLine "XGPSAerofly FS 4,1.0,2.0" = .dropped ∧
    updateLatestXGPS "XGPSAerofly FS 4,1.0,2.0" (some sampleXGPS)
      = .ok (some sampleXGPS) ∧
    parseXGPSLine "XGPSAerofly FS 4,abc,2.0,3.0,4.0,5.0" = .valueError ∧
    updateLatestXGPS "XGPSAerofly FS 4,abc,2.0,3.0,4.0,5.0" (some sampleXGPS)
      = .error () := by
  refine ⟨?_, ?_, ?_, ?_, ?_⟩ <;> with_unfolding_all rfl

/-- C4: evaluation of the commit sequence with an injected failure.  A
failing temporary-file write or a failing remove leaves the
previously-committed canonical file intact, and the caught exception never
propagates, but a failing rename strikes after the canonical file has
already been removed: the old file is gone from the canonical path,
refuting the claim that any mid-write failure leaves it unchanged.  The
half-written temporary content never reaches the canonical path, and the
last-write timestamp is not advanced on failure. -/
theorem C4_commit_eval :
    (commitFile ⟨some "old", none⟩ "new" "par" (some .renameStep)).1.canonical
      = none ∧
    (commitFile ⟨some "old", none⟩ "new" "par" (some .renameStep)).1.canonical
      ≠ some "old" ∧
    (commitFile ⟨some "old", none⟩ "new" "par" (some .tempWrite)).1.canonical
      = some "old" ∧
    (commitFile ⟨some "old", none⟩ "new" "par" (some .tempWrite)).1.canonical
      ≠ some "par" ∧
    (commitFile ⟨some "old", none⟩ "new" "par" (some .removeStep)).1.canonical
      = some "old" ∧
    (commitFile ⟨some "old", none⟩ "new" "par" none).1 = ⟨some "new", none⟩ ∧
    (write_simapi_commit ⟨some "old", none⟩ "new" "par" (some .renameStep) 1 0).2.1
      = false ∧
    (write_simapi_commit ⟨some "old", none⟩ "new" "par" (some .renameStep) 1 0).2.2
      = 0 := by
  refine ⟨rfl, by simp [commitFile], rfl, by simp [commitFile], rfl, rfl, rfl, rfl⟩
